/-
Verification of the ezdeploy containerized build orchestrator (src/main.go)
against its natural-language specification.

The Go program is shallowly embedded: the outcomes of every external
interaction (JSON decode, git clone, file stats, Docker backend calls,
channel delivery in the ContainerWait select) are an oracle `World`;
each function of main.go becomes a Lean function of the world that
returns the trace of externally visible events it performs together
with its result value, mirroring the Go control flow statement by
statement.
-/
import Mathlib

set_option maxRecDepth 8000

namespace Ezdeploy

/-- Outcome of an `os.Stat` probe, as distinguished by
`detectBuildTool` in main.go (err == nil / os.IsNotExist(err) / other). -/
inductive StatResult
  | ok
  | notExist
  | otherError
deriving DecidableEq, Repr

/-- Which channel of `cli.ContainerWait` delivers first in the `select`
of `executeBuild` (main.go lines 170-180): the error channel (with a
nil or non-nil error) or the status channel (with an exit code). -/
inductive WaitMsg
  | errCh (hasErr : Bool)
  | statusCh (code : Int)
deriving DecidableEq, Repr

/-- Oracle for every external interaction of one request:
request body decoding, the repo URL, the clock, and the success of each
filesystem / git / Docker-backend call in program order. -/
structure World where
  decodeOk : Bool
  repoURL : String
  now : Int
  mkdirProjectOk : Bool
  cloneOk : Bool
  statPom : StatResult
  statGradle : StatResult
  clientOk : Bool
  writeDockerfileOk : Bool
  openContextOk : Bool
  imageBuildOk : Bool
  containerCreateOk : Bool
  containerStartOk : Bool
  waitMsg : WaitMsg
  copyFromContainerOk : Bool
  mkdirOutputOk : Bool
deriving DecidableEq, Repr

/-- Externally visible events, in the order the handler performs them. -/
inductive Event
  | mkdirAll (dir : String)
  | gitClone (repoURL dir : String)
  | statFile (path : String)
  | writeDockerfile (content : String)
  | openBuildContext (path : String)
  | imageBuild (dockerfile tag : String)
  | containerCreate (image : String) (cmd : List String)
  | containerStart
  | containerWait
  | copyFromContainer (path : String)
  | httpError (status : Nat) (msg : String)
deriving DecidableEq, Repr

/-- The error values `executeBuild` can return, one constructor per
`return fmt.Errorf(...)` site in main.go lines 115-199, carrying the
formatted-in data. -/
inductive BuildErr
  | clientInit
  | writeDockerfileFailed
  | openProjectDir
  | imageBuildFailed
  | containerCreateFailed
  | containerStartFailed
  | waitError
  | nonZeroExit (code : Int)
  | copyArtifacts
  | mkdirBuildOutput
deriving DecidableEq, Repr

/-- How `deployHandler` terminates (main.go lines 62-113): which return
site is reached.  Only `badRequestBody` and `unsupportedBuildTool`
write an HTTP error response; the other failure outcomes log and
return. -/
inductive HandlerOutcome
  | badRequestBody
  | noRepoName
  | noProjectDir
  | fetchFailed
  | unsupportedBuildTool
  | buildFailed (e : BuildErr)
  | success
deriving DecidableEq, Repr

/-- `strings.Split(s, "/")` for a single-character separator:
split around each occurrence of `'/'`; always returns at least the
accumulated (possibly empty) segment. -/
def splitOnSlashAux : List Char → List Char → List String
  | [], acc => [String.mk acc.reverse]
  | x :: xs, acc =>
    if x = '/' then String.mk acc.reverse :: splitOnSlashAux xs []
    else splitOnSlashAux xs (x :: acc)

/-- `strings.Split(repoURL, "/")` of main.go line 42. -/
def splitOnSlash (s : List Char) : List String := splitOnSlashAux s []

/-- The literal prefix trimmed by `getRepoNameFromURL`. -/
def ghPfx : String := "https://github.com/"

/-- `strings.TrimPrefix(repoURL, "https://github.com/")` of main.go
line 39: drop the prefix when present, else return the string
unchanged. -/
def trimGhPfx (s : String) : List Char :=
  if ghPfx.data.isPrefixOf s.data then s.data.drop ghPfx.data.length else s.data

/-- `getRepoNameFromURL` (main.go lines 37-46): trim the GitHub prefix,
split on "/", take the last part (`parts[len(parts)-1]`). -/
def getRepoNameFromURL (repoURL : String) : String :=
  (splitOnSlash (trimGhPfx repoURL)).getLastD ""

/-- `createProjectDir` (main.go lines 47-60): name the directory
`repoName-timestamp`, attempt `os.MkdirAll`, return "" on failure. -/
def createProjectDir (w : World) (repoName : String) : List Event × String :=
  let projectDir := repoName ++ "-" ++ toString w.now
  ([Event.mkdirAll projectDir], if w.mkdirProjectOk then projectDir else "")

/-- `buildToolArgs` (main.go lines 201-206). -/
def buildToolArgs (buildTool : String) : String :=
  if buildTool = "maven" then "clean package" else "build"

/-- The shell command string `fmt.Sprintf("%s %s", buildTool,
buildToolArgs(buildTool))` of main.go line 145. -/
def shellCommand (buildTool : String) : String :=
  buildTool ++ " " ++ buildToolArgs buildTool

/-- The container `Cmd` of main.go lines 143-146. -/
def buildCmd (buildTool : String) : List String :=
  ["/bin/sh", "-c", shellCommand buildTool]

/-- The Dockerfile text assembled by `generateDockerfile`
(main.go lines 208-223), faithful to the Go raw-string literals
(leading newlines and tab indentation included). -/
def dockerfileContent (buildTool : String) : String :=
  let base := "\n\tFROM openjdk:17-jdk-slim\n\tRUN apt-get update && apt-get install -y curl git"
  let withTool :=
    if buildTool = "maven" then base ++ "\nRUN apt-get install -y maven"
    else if buildTool = "gradle" then base ++ "\nRUN apt-get install -y gradle"
    else base
  withTool ++ "\n\tWORKDIR /app\n\tCOPY . ."

/-- `generateDockerfile` (main.go lines 208-231): assemble the manifest
from the build tool alone, attempt `os.WriteFile("Dockerfile", ...)`;
on success the written bytes are returned for inspection. -/
def generateDockerfile (w : World) (buildTool : String) :
    List Event × Except BuildErr String :=
  let content := dockerfileContent buildTool
  ([Event.writeDockerfile content],
   if w.writeDockerfileOk then Except.ok content
   else Except.error BuildErr.writeDockerfileFailed)

/-- The artifact-extraction tail of `executeBuild` (main.go lines
182-197): `CopyFromContainer("/app/target")`, then
`os.MkdirAll("build-output")`, in that order. -/
def artifactPhase (w : World) : List Event × Except BuildErr Unit :=
  if ¬ w.copyFromContainerOk then
    ([Event.copyFromContainer "/app/target"], Except.error BuildErr.copyArtifacts)
  else if ¬ w.mkdirOutputOk then
    ([Event.copyFromContainer "/app/target", Event.mkdirAll "build-output"],
     Except.error BuildErr.mkdirBuildOutput)
  else
    ([Event.copyFromContainer "/app/target", Event.mkdirAll "build-output"],
     Except.ok ())

/-- `executeBuild` (main.go lines 115-199): client init, Dockerfile
generation, open build context, image build, container create/start,
the `select` over the wait channels, then artifact extraction. -/
def executeBuild (w : World) (projectPath buildTool : String) :
    List Event × Except BuildErr Unit :=
  if ¬ w.clientOk then ([], Except.error BuildErr.clientInit) else
  match generateDockerfile w buildTool with
  | (genEv, Except.error e) => (genEv, Except.error e)
  | (genEv, Except.ok _) =>
    let ev0 := genEv ++ [Event.openBuildContext projectPath]
    if ¬ w.openContextOk then (ev0, Except.error BuildErr.openProjectDir) else
    let ev1 := ev0 ++ [Event.imageBuild "Dockerfile" "java-build-env"]
    if ¬ w.imageBuildOk then (ev1, Except.error BuildErr.imageBuildFailed) else
    let ev2 := ev1 ++ [Event.containerCreate "java-build-env" (buildCmd buildTool)]
    if ¬ w.containerCreateOk then (ev2, Except.error BuildErr.containerCreateFailed) else
    let ev3 := ev2 ++ [Event.containerStart]
    if ¬ w.containerStartOk then (ev3, Except.error BuildErr.containerStartFailed) else
    let ev4 := ev3 ++ [Event.containerWait]
    match w.waitMsg with
    | WaitMsg.errCh true => (ev4, Except.error BuildErr.waitError)
    | WaitMsg.errCh false => (ev4 ++ (artifactPhase w).1, (artifactPhase w).2)
    | WaitMsg.statusCh code =>
      if code ≠ 0 then (ev4, Except.error (BuildErr.nonZeroExit code)) else
      (ev4 ++ (artifactPhase w).1, (artifactPhase w).2)

/-- `detectBuildTool` (main.go lines 232-255): stat `pom.xml`, on
success return "maven"; else stat `build.gradle`, on success return
"gradle"; else "unknown". -/
def detectBuildTool (w : World) (projectPath : String) : List Event × String :=
  let pomPath := projectPath ++ "/pom.xml"
  let gradlePath := projectPath ++ "/build.gradle"
  if w.statPom = StatResult.ok then ([Event.statFile pomPath], "maven")
  else if w.statGradle = StatResult.ok then
    ([Event.statFile pomPath, Event.statFile gradlePath], "gradle")
  else ([Event.statFile pomPath, Event.statFile gradlePath], "unknown")

/-- `deployHandler` (main.go lines 62-113): decode body, extract repo
name, create project dir, clone, detect build tool, reject "unknown"
with HTTP 400, otherwise run `executeBuild`.  Only the decode failure
and the unknown-tool branches call `http.Error`. -/
def deployHandler (w : World) : List Event × HandlerOutcome :=
  if ¬ w.decodeOk then
    ([Event.httpError 400 "Error parsing request body"], HandlerOutcome.badRequestBody)
  else
    let repoName := getRepoNameFromURL w.repoURL
    if repoName = "" then ([], HandlerOutcome.noRepoName)
    else
      let (evDir, projectDir) := createProjectDir w repoName
      if projectDir = "" then (evDir, HandlerOutcome.noProjectDir)
      else
        let evClone := evDir ++ [Event.gitClone w.repoURL projectDir]
        if ¬ w.cloneOk then (evClone, HandlerOutcome.fetchFailed)
        else
          let (evDetect, buildTool) := detectBuildTool w projectDir
          let ev := evClone ++ evDetect
          if buildTool = "unknown" then
            (ev ++ [Event.httpError 400 "Unsupported build tool! %!v(MISSING)"],
             HandlerOutcome.unsupportedBuildTool)
          else
            match executeBuild w projectDir buildTool with
            | (evBuild, Except.error e) => (ev ++ evBuild, HandlerOutcome.buildFailed e)
            | (evBuild, Except.ok _) => (ev ++ evBuild, HandlerOutcome.success)

/-- Events that generate an image specification, trigger an image
build, or create an execution unit (the Provisioner / Build Runner
side effects a rejected request must not perform). -/
def isProvisionEvent : Event → Bool
  | Event.writeDockerfile _ => true
  | Event.imageBuild _ _ => true
  | Event.containerCreate _ _ => true
  | _ => false

/-- Events that write an HTTP error response to the client. -/
def isHttpError : Event → Bool
  | Event.httpError _ _ => true
  | _ => false

/-- Substring test on character lists: `pat` occurs in `s` iff it is a
prefix of some suffix of `s`. -/
def containsSub (pat : String) : List Char → Bool
  | [] => pat.data.isPrefixOf ([] : List Char)
  | c :: cs => pat.data.isPrefixOf (c :: cs) || containsSub pat cs

/-- A world in which every external call succeeds: well-formed request
for `https://github.com/user/repo`, `pom.xml` present, exit status 0. -/
def wAllOk : World :=
  { decodeOk := true
    repoURL := "https://github.com/user/repo"
    now := 0
    mkdirProjectOk := true
    cloneOk := true
    statPom := StatResult.ok
    statGradle := StatResult.notExist
    clientOk := true
    writeDockerfileOk := true
    openContextOk := true
    imageBuildOk := true
    containerCreateOk := true
    containerStartOk := true
    waitMsg := WaitMsg.statusCh 0
    copyFromContainerOk := true
    mkdirOutputOk := true }

/-- A world identical to `wAllOk` except that the git clone fails. -/
def wCloneFail : World := { wAllOk with cloneOk := false }

/-- `artifactPhase` emits the copy event followed by the mkdir event
whenever the copy succeeds, regardless of the mkdir outcome. -/
theorem artifactPhase_fst_of_copyOk (w : World) (h : w.copyFromContainerOk = true) :
    (artifactPhase w).1 =
      [Event.copyFromContainer "/app/target", Event.mkdirAll "build-output"] := by
  cases hm : w.mkdirOutputOk <;> simp [artifactPhase, h, hm]

/-- C1: the claim says the shell command run inside the execution unit
is "mvn clean package" for Maven and "gradle build" for Gradle.  The
code instead interpolates the detected build-tool identifier itself as
the command name, so for Maven it runs "maven clean package" (there is
no `maven` binary; `buildToolArgs` and the Dockerfile show Maven is the
intent), while the Gradle case matches the claim. -/
theorem C1_maven_command_code_bug :
    shellCommand "maven" = "maven clean package" ∧
    shellCommand "maven" ≠ "mvn clean package" ∧
    shellCommand "gradle" = "gradle build" ∧
    Event.containerCreate "java-build-env" ["/bin/sh", "-c", "maven clean package"]
      ∈ (executeBuild wAllOk "projectDir" "maven").1 := by
  refine ⟨by decide, by decide, by decide, by decide⟩

/-- C2 counterexample: in a fully successful Maven build both the
copy-from-container step and the creation of "build-output" occur, but
the mkdir does NOT precede the copy — it comes one position later. -/
theorem C2_counterexample :
    Event.copyFromContainer "/app/target" ∈ (executeBuild wAllOk "projectDir" "maven").1 ∧
    Event.mkdirAll "build-output" ∈ (executeBuild wAllOk "projectDir" "maven").1 ∧
    ¬ ((executeBuild wAllOk "projectDir" "maven").1.indexOf (Event.mkdirAll "build-output") <
       (executeBuild wAllOk "projectDir" "maven").1.indexOf
         (Event.copyFromContainer "/app/target")) := by
  refine ⟨by decide, by decide, by decide⟩

/-- C2 (amended): whenever the host destination directory
"build-output" is created during a build, that creation immediately
FOLLOWS the copy-from-container step — the trace ends with the copy
event and then the mkdir event. -/
theorem C2_mkdir_follows_copy (w : World) (projectPath buildTool : String)
    (hmem : Event.mkdirAll "build-output" ∈ (executeBuild w projectPath buildTool).1) :
    ∃ pre, (executeBuild w projectPath buildTool).1 =
      pre ++ [Event.copyFromContainer "/app/target", Event.mkdirAll "build-output"] := by
  cases h1 : w.clientOk
  · simp [executeBuild, h1] at hmem
  · cases h2 : w.writeDockerfileOk
    · simp [executeBuild, generateDockerfile, h1, h2] at hmem
    · cases h3 : w.openContextOk
      · simp [executeBuild, generateDockerfile, h1, h2, h3] at hmem
      · cases h4 : w.imageBuildOk
        · simp [executeBuild, generateDockerfile, h1, h2, h3, h4] at hmem
        · cases h5 : w.containerCreateOk
          · simp [executeBuild, generateDockerfile, h1, h2, h3, h4, h5] at hmem
          · cases h6 : w.containerStartOk
            · simp [executeBuild, generateDockerfile, h1, h2, h3, h4, h5, h6] at hmem
            · cases h7 : w.copyFromContainerOk
              · rcases hw : w.waitMsg with b | code
                · cases b
                  · simp [executeBuild, generateDockerfile, artifactPhase, h1, h2, h3,
                      h4, h5, h6, h7, hw] at hmem
                  · simp [executeBuild, generateDockerfile, h1, h2, h3, h4, h5, h6,
                      hw] at hmem
                · by_cases hc : code = 0
                  · simp [executeBuild, generateDockerfile, artifactPhase, h1, h2, h3,
                      h4, h5, h6, h7, hw, hc] at hmem
                  · simp [executeBuild, generateDockerfile, h1, h2, h3, h4, h5, h6,
                      hw, hc] at hmem
              · refine ⟨[Event.writeDockerfile (dockerfileContent buildTool),
                  Event.openBuildContext projectPath,
                  Event.imageBuild "Dockerfile" "java-build-env",
                  Event.containerCreate "java-build-env" (buildCmd buildTool),
                  Event.containerStart, Event.containerWait], ?_⟩
                rcases hw : w.waitMsg with b | code
                · cases b
                  · simp [executeBuild, generateDockerfile, h1, h2, h3, h4, h5, h6, hw,
                      artifactPhase_fst_of_copyOk w h7]
                  · simp [executeBuild, generateDockerfile, h1, h2, h3, h4, h5, h6,
                      hw] at hmem
                · by_cases hc : code = 0
                  · simp [executeBuild, generateDockerfile, h1, h2, h3, h4, h5, h6, hw,
                      hc, artifactPhase_fst_of_copyOk w h7]
                  · simp [executeBuild, generateDockerfile, h1, h2, h3, h4, h5, h6,
                      hw, hc] at hmem

/-- C2 witness: the amended theorem applied to the all-success world. -/
theorem C2_mkdir_follows_copy_witness :
    Event.mkdirAll "build-output" ∈ (executeBuild wAllOk "projectDir" "maven").1 ∧
    ∃ pre, (executeBuild wAllOk "projectDir" "maven").1 =
      pre ++ [Event.copyFromContainer "/app/target", Event.mkdirAll "build-output"] :=
  ⟨by decide, C2_mkdir_follows_copy wAllOk "projectDir" "maven" (by decide)⟩

/-- C3: the claim says every component error is mapped to an HTTP error
response.  When the git clone fails, the handler reaches the
fetch-failed return site having written no HTTP error event at all —
the error is logged and swallowed, contradicting the propagation
policy the spec states (and which the spec itself calls out as a
defect of the base implementation). -/
theorem C3_error_swallowed_code_bug :
    (deployHandler wCloneFail).2 = HandlerOutcome.fetchFailed ∧
    (deployHandler wCloneFail).1.all (fun e => ! isHttpError e) = true := by
  refine ⟨by decide, by decide⟩

/-- C6: the Maven manifest installs the maven toolchain package and
never mentions gradle; the Gradle manifest installs the gradle
toolchain package and never mentions maven. -/
theorem C6_manifest_toolchain_exclusive :
    containsSub "RUN apt-get install -y maven" (dockerfileContent "maven").data = true ∧
    containsSub "gradle" (dockerfileContent "maven").data = false ∧
    containsSub "RUN apt-get install -y gradle" (dockerfileContent "gradle").data = true ∧
    containsSub "maven" (dockerfileContent "gradle").data = false := by
  refine ⟨by decide, by decide, by decide, by decide⟩

/-- C9: the build-command argument mapping is total with a default:
"maven" maps to "clean package" and every other string — "gradle"
included — maps to "build". -/
theorem C9_buildToolArgs_total :
    buildToolArgs "maven" = "clean package" ∧
    buildToolArgs "gradle" = "build" ∧
    ∀ s : String, s ≠ "maven" → buildToolArgs s = "build" := by
  refine ⟨rfl, rfl, ?_⟩
  intro s hs
  simp [buildToolArgs, hs]

/-- C9 witness: the mapping's default branch at a concrete
unrecognized input. -/
theorem C9_buildToolArgs_total_witness :
    ("sbt" : String) ≠ "maven" ∧ buildToolArgs "sbt" = "build" :=
  ⟨by decide, C9_buildToolArgs_total.2.2 "sbt" (by decide)⟩

/-- A directory name of the form `repoName-timestamp` is never the
empty string. -/
theorem append_dash_ne_empty (s t : String) : s ++ "-" ++ t ≠ "" := by
  intro h
  have h2 := congrArg String.length h
  rw [String.length_append, String.length_append] at h2
  have h3 : ("-" : String).length = 1 := rfl
  have h4 : ("" : String).length = 0 := rfl
  omega

/-- A world like `wAllOk` in which neither marker file exists. -/
def wUnknown : World :=
  { wAllOk with statPom := StatResult.notExist, statGradle := StatResult.notExist }

/-- C4: when detection yields "unknown" (neither marker file stats
successfully), the handler answers HTTP 400 and performs none of the
provisioning side effects: no manifest write, no image build, no
container creation. -/
theorem C4_unknown_rejected_before_provisioner (w : World)
    (h1 : w.decodeOk = true)
    (h2 : getRepoNameFromURL w.repoURL ≠ "")
    (h3 : w.mkdirProjectOk = true)
    (h4 : w.cloneOk = true)
    (h5 : w.statPom ≠ StatResult.ok)
    (h6 : w.statGradle ≠ StatResult.ok) :
    (deployHandler w).2 = HandlerOutcome.unsupportedBuildTool ∧
    Event.httpError 400 "Unsupported build tool! %!v(MISSING)" ∈ (deployHandler w).1 ∧
    (deployHandler w).1.all (fun e => ! isProvisionEvent e) = true := by
  have hdir := append_dash_ne_empty (getRepoNameFromURL w.repoURL) (toString w.now)
  simp [deployHandler, createProjectDir, detectBuildTool, isProvisionEvent,
    h1, h2, h3, h4, h5, h6, hdir]

/-- C4 witness: the theorem applied to a concrete world with neither
marker file present. -/
theorem C4_unknown_rejected_witness :
    (wUnknown.decodeOk = true ∧ getRepoNameFromURL wUnknown.repoURL ≠ "" ∧
     wUnknown.mkdirProjectOk = true ∧ wUnknown.cloneOk = true ∧
     wUnknown.statPom ≠ StatResult.ok ∧ wUnknown.statGradle ≠ StatResult.ok) ∧
    ((deployHandler wUnknown).2 = HandlerOutcome.unsupportedBuildTool ∧
     Event.httpError 400 "Unsupported build tool! %!v(MISSING)" ∈ (deployHandler wUnknown).1 ∧
     (deployHandler wUnknown).1.all (fun e => ! isProvisionEvent e) = true) :=
  ⟨⟨rfl, by decide, rfl, rfl, by decide, by decide⟩,
   C4_unknown_rejected_before_provisioner wUnknown rfl (by decide) rfl rfl
     (by decide) (by decide)⟩

/-- A world like `wAllOk` whose execution unit exits with code 1. -/
def wNonZero : World := { wAllOk with waitMsg := WaitMsg.statusCh 1 }

/-- C5: when the status channel delivers a nonzero exit code, the build
result is the nonzero-exit error carrying that code and the
copy-from-container step is never performed. -/
theorem C5_nonzero_exit_no_extraction (w : World) (projectPath buildTool : String)
    (code : Int)
    (h1 : w.clientOk = true) (h2 : w.writeDockerfileOk = true)
    (h3 : w.openContextOk = true) (h4 : w.imageBuildOk = true)
    (h5 : w.containerCreateOk = true) (h6 : w.containerStartOk = true)
    (hw : w.waitMsg = WaitMsg.statusCh code) (hc : code ≠ 0) :
    (executeBuild w projectPath buildTool).2 = Except.error (BuildErr.nonZeroExit code) ∧
    Event.copyFromContainer "/app/target" ∉ (executeBuild w projectPath buildTool).1 := by
  simp [executeBuild, generateDockerfile, h1, h2, h3, h4, h5, h6, hw, hc]

/-- C5 witness: the theorem applied to a concrete world whose container
exits with code 1. -/
theorem C5_nonzero_exit_witness :
    (wNonZero.clientOk = true ∧ wNonZero.writeDockerfileOk = true ∧
     wNonZero.openContextOk = true ∧ wNonZero.imageBuildOk = true ∧
     wNonZero.containerCreateOk = true ∧ wNonZero.containerStartOk = true ∧
     wNonZero.waitMsg = WaitMsg.statusCh 1 ∧ (1 : Int) ≠ 0) ∧
    ((executeBuild wNonZero "projectDir" "maven").2 =
       Except.error (BuildErr.nonZeroExit 1) ∧
     Event.copyFromContainer "/app/target" ∉ (executeBuild wNonZero "projectDir" "maven").1) :=
  ⟨⟨rfl, rfl, rfl, rfl, rfl, rfl, rfl, by decide⟩,
   C5_nonzero_exit_no_extraction wNonZero "projectDir" "maven" 1 rfl rfl rfl rfl rfl rfl
     rfl (by decide)⟩

/-- C7: the manifest content produced by two successful runs of the
image-specification builder with the same build-tool kind is
byte-identical — it is a function of the kind alone, whatever else
differs between the two worlds. -/
theorem C7_manifest_deterministic (w1 w2 : World) (buildTool : String) (c1 c2 : String)
    (h1 : (generateDockerfile w1 buildTool).2 = Except.ok c1)
    (h2 : (generateDockerfile w2 buildTool).2 = Except.ok c2) :
    c1 = c2 := by
  cases k1 : w1.writeDockerfileOk <;> cases k2 : w2.writeDockerfileOk <;>
    simp_all [generateDockerfile]

/-- C7 witness: two runs on the all-success world produce the same
Maven manifest. -/
theorem C7_manifest_deterministic_witness :
    (generateDockerfile wAllOk "maven").2 = Except.ok (dockerfileContent "maven") ∧
    dockerfileContent "maven" = dockerfileContent "maven" :=
  ⟨rfl, C7_manifest_deterministic wAllOk wAllOk "maven" _ _ rfl rfl⟩

/-- A world like `wAllOk` in which both marker files exist. -/
def wBothMarkers : World := { wAllOk with statGradle := StatResult.ok }

/-- C8: when both `pom.xml` and `build.gradle` stat successfully the
detector returns "maven" — the pom probe takes precedence. -/
theorem C8_pom_takes_precedence (w : World) (projectPath : String)
    (h1 : w.statPom = StatResult.ok) (_h2 : w.statGradle = StatResult.ok) :
    (detectBuildTool w projectPath).2 = "maven" := by
  simp [detectBuildTool, h1]

/-- C8 witness: the theorem applied to a concrete world with both
marker files present. -/
theorem C8_pom_takes_precedence_witness :
    (wBothMarkers.statPom = StatResult.ok ∧ wBothMarkers.statGradle = StatResult.ok) ∧
    (detectBuildTool wBothMarkers "projectDir").2 = "maven" :=
  ⟨⟨rfl, rfl⟩, C8_pom_takes_precedence wBothMarkers "projectDir" rfl rfl⟩

/-- The Go-style split never returns an empty list: there is always at
least the trailing accumulated segment. -/
theorem splitOnSlashAux_ne_nil (l acc : List Char) : splitOnSlashAux l acc ≠ [] := by
  induction l generalizing acc with
  | nil => simp [splitOnSlashAux]
  | cons x xs ih =>
    simp only [splitOnSlashAux]
    split
    · simp
    · exact ih _

/-- If the character list ends with '/', the last split segment is the
empty string, whatever the accumulator and default. -/
theorem splitOnSlashAux_getLastD_of_last_slash :
    ∀ (l : List Char), l.getLast? = some '/' →
      ∀ (acc : List Char) (d : String), (splitOnSlashAux l acc).getLastD d = "" := by
  intro l
  induction l with
  | nil => intro h; simp at h
  | cons x xs ih =>
    intro h acc d
    cases xs with
    | nil =>
      have hx : x = '/' := by simpa using h
      subst hx
      simp [splitOnSlashAux, List.getLastD_cons]
    | cons y ys =>
      have h' : (y :: ys).getLast? = some '/' := by
        rwa [List.getLast?_cons_cons] at h
      simp only [splitOnSlashAux]
      split
      · rw [List.getLastD_cons]
        exact ih h' [] _
      · exact ih h' (x :: acc) d

/-- Dropping a prefix of a list ending in '/' leaves a list that still
ends in '/' — or nothing at all. -/
theorem getLast?_drop_or_nil (l : List Char) (n : Nat) (h : l.getLast? = some '/') :
    (l.drop n).getLast? = some '/' ∨ l.drop n = [] := by
  induction n generalizing l with
  | zero => left; simpa using h
  | succ n ih =>
    cases l with
    | nil => right; simp
    | cons x xs =>
      cases xs with
      | nil => right; simp
      | cons y ys =>
        have h' : (y :: ys).getLast? = some '/' := by
          rwa [List.getLast?_cons_cons] at h
        simpa [List.drop_succ_cons] using ih (y :: ys) h'

/-- C10: repository-name extraction is total — the split always yields
at least one segment, so the last-segment access is in bounds; a URL
ending in "/" yields the empty string; and the handler treats an empty
extracted name as failure, returning with no further side effects. -/
theorem C10_repo_name_total :
    (∀ url : String, splitOnSlash (trimGhPfx url) ≠ []) ∧
    (∀ url : String, url.data.getLast? = some '/' → getRepoNameFromURL url = "") ∧
    (∀ w : World, w.decodeOk = true → getRepoNameFromURL w.repoURL = "" →
      deployHandler w = ([], HandlerOutcome.noRepoName)) := by
  refine ⟨?_, ?_, ?_⟩
  · intro url
    exact splitOnSlashAux_ne_nil _ _
  · intro url h
    unfold getRepoNameFromURL splitOnSlash trimGhPfx
    split
    · rcases getLast?_drop_or_nil url.data ghPfx.data.length h with h2 | h2
      · exact splitOnSlashAux_getLastD_of_last_slash _ h2 _ _
      · rw [h2]; rfl
    · exact splitOnSlashAux_getLastD_of_last_slash _ h _ _
  · intro w h1 h2
    simp [deployHandler, h1, h2]

/-- A world whose repo URL ends in a slash. -/
def wSlashURL : World := { wAllOk with repoURL := "https://github.com/user/repo/" }

/-- C10 witness: the theorem's parts applied at a URL ending in "/". -/
theorem C10_repo_name_total_witness :
    ("https://github.com/user/repo/" : String).data.getLast? = some '/' ∧
    getRepoNameFromURL "https://github.com/user/repo/" = "" ∧
    wSlashURL.decodeOk = true ∧
    deployHandler wSlashURL = ([], HandlerOutcome.noRepoName) :=
  ⟨by decide, C10_repo_name_total.2.1 _ (by decide), rfl,
   C10_repo_name_total.2.2 wSlashURL rfl (by decide)⟩

end Ezdeploy
